import Mathlib

/-!
Verification development for the data synchronization and persistence layer
of the regal_jan_seva_erp_app repository.

The definitions in this file are a shallow embedding of the TypeScript
source, chiefly:

* `src/db.ts`       : class `DatabaseEngine` (IndexedDB local store with a
                      Supabase remote store in front of it), the exported
                      `db` API (`settings.get`, `auth.login`, `system.restore`,
                      `init`), and the default seed data;
* `src/unnamed/part_001` : an earlier, localStorage based revision of the
                      same module, whose `system.restore` and `init` differ
                      from `src/db.ts` in ways that matter below;
* `src/pages/JobManagement.tsx` : the job totals computation (`totals`
                      useMemo), `handleSave` and `handleItemStatusUpdate`.

Modelling conventions:

* A record stored in a generic object store is a `Rec`: an `id` string plus
  a flat list of field/value pairs.  The engine functions are polymorphic in
  the record type and take the key projection (the TypeScript stores are all
  keyed by the field `id`).
* Promises are modelled with `Except String`: a rejected promise is
  `Except.error msg` with the message the source rejects with.
* Each asynchronous backend interaction gets an explicit outcome flag:
  `netOk` (the Supabase network call succeeds), `openOk` (the
  `indexedDB.open` request succeeds, i.e. `connectLocal` resolves),
  `readOk` / `putOk` / `delOk` / `getOk` (the individual IndexedDB request
  fires `onsuccess` rather than `onerror`).  The source installs handlers
  for exactly these events; the flags make every handled failure reachable.
* JavaScript numbers are modelled as rationals (`Rat`); the claims under
  study are about exact arithmetic relationships, not float rounding.
-/

/-- A stored record: the `id` key plus the remaining flat fields, as produced
by `XLSX.utils.sheet_to_json` or stored in an IndexedDB object store keyed by
`id` (`src/db.ts` line 48). -/
structure Rec where
  id : String
  fields : List (String × String)
deriving DecidableEq, Repr

/-- `IDBObjectStore.put` semantics on a store keyed by `key`: replace the
record holding the same key if present, otherwise append it. -/
def idbPut {α : Type} (key : α → String) (store : List α) (r : α) : List α :=
  if store.any (fun x => key x == key r) then
    store.map (fun x => if key x == key r then r else x)
  else
    store ++ [r]

/-- The dual backend state for one entity type: `configured` is whether the
Supabase client exists (`src/db.ts` lines 23-26), `remote` the rows of the
Supabase table, `localStore` the records in the IndexedDB object store. -/
structure SyncState (α : Type) where
  configured : Bool
  remote : List α
  localStore : List α
deriving DecidableEq, Repr

/-- `DatabaseEngine.cloudAll` (`src/db.ts` lines 62-72): returns `null`
(here `none`) when Supabase is unconfigured or the select errors, otherwise
the rows of the table. -/
def cloudAll {α : Type} (s : SyncState α) (netOk : Bool) : Option (List α) :=
  if s.configured && netOk then some s.remote else none

/-- `DatabaseEngine.cloudSave` (`src/db.ts` lines 75-85): best effort upsert
into the remote table; reports `false` and leaves the table unchanged when
unconfigured or the network call fails. -/
def cloudSave {α : Type} (key : α → String) (s : SyncState α) (netOk : Bool)
    (item : α) : Bool × SyncState α :=
  if s.configured && netOk then
    (true, { s with remote := idbPut key s.remote item })
  else
    (false, s)

/-- `DatabaseEngine.cloudDelete` (`src/db.ts` lines 88-98): best effort
delete of the remote row with the given id. -/
def cloudDelete {α : Type} (key : α → String) (s : SyncState α) (netOk : Bool)
    (id : String) : Bool × SyncState α :=
  if s.configured && netOk then
    (true, { s with remote := s.remote.filter (fun x => key x != id) })
  else
    (false, s)

/-- `DatabaseEngine.all` (`src/db.ts` lines 102-121).  On a remote result it
refreshes the local cache with a `put` per returned record and returns the
remote list; otherwise it falls back to `getAll` on the local store,
resolving `[]` when that request errors.  Both branches first await
`connectLocal`, which rejects with the string below when the
`indexedDB.open` request errors (`src/db.ts` line 39). -/
def engineAll {α : Type} (key : α → String) (s : SyncState α)
    (netOk openOk readOk : Bool) : Except String (List α × SyncState α) :=
  match cloudAll s netOk with
  | some cloudData =>
      if openOk then
        Except.ok (cloudData,
          { s with localStore := cloudData.foldl (idbPut key) s.localStore })
      else
        Except.error "Local database failed to open"
  | none =>
      if openOk then
        Except.ok ((if readOk then s.localStore else []), s)
      else
        Except.error "Local database failed to open"

/-- `DatabaseEngine.save` (`src/db.ts` lines 123-134): best effort remote
upsert, then a local `put` whose success resolves with the input item
unchanged and whose failure rejects. -/
def engineSave {α : Type} (key : α → String) (storeName : String)
    (s : SyncState α) (netOk openOk putOk : Bool) (item : α) :
    Except String (α × SyncState α) :=
  let s1 := (cloudSave key s netOk item).2
  if openOk then
    if putOk then
      Except.ok (item, { s1 with localStore := idbPut key s1.localStore item })
    else
      Except.error ("Error saving " ++ storeName ++ " locally")
  else
    Except.error "Local database failed to open"

/-- `DatabaseEngine.delete` (`src/db.ts` lines 136-147): best effort remote
delete, then a local delete-by-key (a no-op on an absent key). -/
def engineDelete {α : Type} (key : α → String) (storeName : String)
    (s : SyncState α) (netOk openOk delOk : Bool) (id : String) :
    Except String (SyncState α) :=
  let s1 := (cloudDelete key s netOk id).2
  if openOk then
    if delOk then
      Except.ok { s1 with localStore := s1.localStore.filter (fun x => key x != id) }
    else
      Except.error ("Error deleting " ++ id ++ " from local " ++ storeName)
  else
    Except.error "Local database failed to open"

/-- `DatabaseEngine.getById` (`src/db.ts` lines 149-163): when Supabase is
configured and the single-row select finds data, return it; otherwise fall
back to a local `get`, resolving `none` when that request errors. -/
def engineGetById {α : Type} (key : α → String) (s : SyncState α)
    (netOk openOk getOk : Bool) (id : String) : Except String (Option α) :=
  match (if s.configured && netOk then s.remote.find? (fun x => key x == id) else none) with
  | some r => Except.ok (some r)
  | none =>
      if openOk then
        Except.ok (if getOk then s.localStore.find? (fun x => key x == id) else none)
      else
        Except.error "Local database failed to open"

/-- A user record (`src/types.ts` lines 12-19); `password` is optional in the
TypeScript interface, hence `Option String`. -/
structure UserRec where
  id : String
  username : String
  email : String
  password : Option String
  role : String
  privileges : List String
deriving DecidableEq, Repr

/-- A service catalog record (`src/types.ts` lines 30-36). -/
structure ServiceRec where
  id : String
  name : String
  description : String
  basePrice : Rat
  category : String
deriving DecidableEq, Repr

/-- The company settings value (`src/types.ts` lines 75-82). -/
structure CompanySettings where
  companyName : String
  mobileNumber : String
  address : String
  ownerName : String
  email : String
  website : String
deriving DecidableEq, Repr

/-- What `db.settings.save` actually stores: the settings fields together
with the fixed singleton key (`src/db.ts` line 222 spreads the settings and
adds `id: 'current_config'`). -/
structure SettingsRec where
  id : String
  value : CompanySettings
deriving DecidableEq, Repr

/-- `DEFAULT_USERS` (`src/db.ts` lines 169-178, identical in
`src/unnamed/part_001` lines 39-48). -/
def DEFAULT_USERS : List UserRec :=
  [{ id := "u1", username := "admin", email := "admin@regal-erp.com",
     password := some "password123", role := "ADMIN",
     privileges := ["MANAGE_USERS", "VIEW_REPORTS", "MANAGE_CUSTOMERS",
                    "MANAGE_SERVICES", "MANAGE_JOBS", "MANAGE_INVENTORY"] }]

/-- `DEFAULT_SERVICES` (`src/unnamed/part_001` lines 50-53; `src/db.ts` has
no such constant). -/
def DEFAULT_SERVICES : List ServiceRec :=
  [{ id := "s1", name := "Aadhaar Update",
     description := "Biometric and demographic updates",
     basePrice := 50, category := "UIDAI" },
   { id := "s2", name := "PAN Card New",
     description := "Application for fresh PAN card",
     basePrice := 150, category := "UTI/IT" }]

/-- `DEFAULT_SETTINGS` (`src/db.ts` lines 180-187). -/
def DEFAULT_SETTINGS : CompanySettings :=
  { companyName := "Regal Jan Seva Kendra",
    mobileNumber := "+91 98765 43210",
    address := "Shop No. 12, Main Market Road, Near Tehsil Office, Regal Chowk, India",
    ownerName := "Admin User",
    email := "contact@regaljsk.com",
    website := "www.regaljsk.com" }

/-- The matching step of `db.auth.login` (`src/db.ts` line 240): the first
user of the fetched list matching on strict username and password equality,
else `null`. -/
def login (users : List UserRec) (username password : String) : Option UserRec :=
  users.find? (fun u => u.username == username && u.password == some password)

/-- `db.auth.login` in full (`src/db.ts` lines 238-241): it awaits
`db.users.all()` — with no catch, so a rejection of `all()` (the local
database failing to open) propagates — and then runs the matching step over
the resolved user list. -/
def dbLogin (s : SyncState UserRec) (netOk openOk readOk : Bool)
    (username password : String) : Except String (Option UserRec) :=
  match engineAll UserRec.id s netOk openOk readOk with
  | Except.error e => Except.error e
  | Except.ok (users, _) => Except.ok (login users username password)

/-- `db.settings.get` (`src/db.ts` lines 217-220): `getById` on the settings
store under the singleton key, with `DEFAULT_SETTINGS` substituted when the
lookup resolves to nothing.  A rejected lookup propagates. -/
def settingsGet (s : SyncState SettingsRec) (netOk openOk getOk : Bool) :
    Except String CompanySettings :=
  match engineGetById SettingsRec.id s netOk openOk getOk "current_config" with
  | Except.ok (some r) => Except.ok r.value
  | Except.ok none => Except.ok DEFAULT_SETTINGS
  | Except.error e => Except.error e

/-- `db.settings.save` (`src/db.ts` lines 221-223): `engine.save` of the
settings value under the fixed key `current_config`. -/
def settingsSave (s : SyncState SettingsRec) (netOk openOk putOk : Bool)
    (cs : CompanySettings) : Except String (SettingsRec × SyncState SettingsRec) :=
  engineSave SettingsRec.id "settings" s netOk openOk putOk
    { id := "current_config", value := cs }

/-- The stores that `db.init` touches (`src/db.ts` lines 283-299): the users
and settings stores are read and possibly seeded; the services store is
carried along to record that `src/db.ts` init never touches it. -/
structure AppDb where
  users : SyncState UserRec
  services : SyncState ServiceRec
  settings : SyncState SettingsRec
deriving DecidableEq, Repr

/-- `db.init` (`src/db.ts` lines 283-299) in the regime where every local
IndexedDB request succeeds (`connectLocal` resolves and each request fires
`onsuccess`; the flags are therefore `true` throughout — the rejection
behaviour of the underlying operations is studied separately).  It reads all
users, seeds `DEFAULT_USERS` when the list is empty, then seeds the
settings singleton when `getById` finds none.  The services store is not
consulted. -/
def dbInit (netOk : Bool) (d : AppDb) : AppDb :=
  match engineAll UserRec.id d.users netOk true true with
  | Except.error _ => d
  | Except.ok (users, us1) =>
      let us2 :=
        if users.isEmpty then
          DEFAULT_USERS.foldl (fun st u =>
            match engineSave UserRec.id "users" st netOk true true u with
            | Except.ok p => p.2
            | Except.error _ => st) us1
        else us1
      let d1 : AppDb := { d with users := us2 }
      match engineGetById SettingsRec.id d1.settings netOk true true "current_config" with
      | Except.error _ => d1
      | Except.ok (some _) => d1
      | Except.ok none =>
          match settingsSave d1.settings netOk true true DEFAULT_SETTINGS with
          | Except.ok p => { d1 with settings := p.2 }
          | Except.error _ => d1

/-- `storage.save` of the localStorage revision (`src/unnamed/part_001`
lines 22-31): replace the item at the index holding the same id, else push. -/
def storageSave {α : Type} (key : α → String) (items : List α) (item : α) : List α :=
  match items.findIdx? (fun i => key i == key item) with
  | some idx => items.set idx item
  | none => items ++ [item]

/-- The state of the localStorage revision (`src/unnamed/part_001`): one
JSON array per collection under `regal_erp_<name>`, with the settings key
holding a single object rather than an array (lines 96-102). -/
structure LocalDbV1 where
  users : List UserRec
  services : List ServiceRec
  settingsItem : Option CompanySettings
deriving DecidableEq, Repr

/-- `db.init` of the localStorage revision (`src/unnamed/part_001` lines
191-204): seeds `DEFAULT_USERS`, `DEFAULT_SERVICES` and `DEFAULT_SETTINGS`,
each only when the corresponding collection is empty or the settings item
absent. -/
def dbInitV1 (d : LocalDbV1) : LocalDbV1 :=
  let d1 :=
    if d.users.isEmpty then
      { d with users := DEFAULT_USERS.foldl (storageSave UserRec.id) d.users }
    else d
  let d2 :=
    if d1.services.isEmpty then
      { d1 with services := DEFAULT_SERVICES.foldl (storageSave ServiceRec.id) d1.services }
    else d1
  if d2.settingsItem.isNone then { d2 with settingsItem := some DEFAULT_SETTINGS }
  else d2

/-- The canonical table names, `Object.values(STORES)` in `src/db.ts` lines
9-16 (and `COLLECTIONS` in `src/unnamed/part_001` lines 4-11). -/
def STORE_NAMES : List String :=
  ["users", "customers", "services", "jobs", "inventory", "settings"]

/-- A parsed workbook: a sheet is a name together with the record rows that
`XLSX.utils.sheet_to_json` produces for it. -/
structure Workbook where
  sheets : List (String × List Rec)
deriving DecidableEq, Repr

/-- `workbook.SheetNames`. -/
def sheetNames (wb : Workbook) : List String :=
  wb.sheets.map Prod.fst

/-- `workbook.Sheets[name]` followed by `sheet_to_json`: the rows of the
sheet with the given name, when present. -/
def sheetFor (wb : Workbook) (name : String) : Option (List Rec) :=
  (wb.sheets.find? (fun p => p.fst == name)).map Prod.snd

/-- One full set of entity stores for the `src/db.ts` engine. -/
structure Stores where
  users : SyncState Rec
  customers : SyncState Rec
  services : SyncState Rec
  jobs : SyncState Rec
  inventory : SyncState Rec
  settings : SyncState Rec
deriving DecidableEq, Repr

/-- The inner loop of `db.system.restore` in `src/db.ts` (lines 267-273) for
one store: when the workbook has a sheet of that name, `engine.save` each of
its rows in order (local requests succeeding, the flags of the regime under
study being `true`). -/
def restoreSheet (storeName : String) (netOk : Bool) (s : SyncState Rec)
    (rows : Option (List Rec)) : SyncState Rec :=
  match rows with
  | none => s
  | some rs =>
      rs.foldl (fun st r =>
        match engineSave Rec.id storeName st netOk true true r with
        | Except.ok p => p.2
        | Except.error _ => st) s

/-- `db.system.restore` (`src/db.ts` lines 260-281) on an already parsed
workbook: every store whose sheet is present is fed row by row through
`engine.save`, and the promise resolves `true`.  There is no check that any
sheet matched; a workbook with zero matching sheets resolves `true` with all
stores untouched. -/
def dbRestore (netOk : Bool) (st : Stores) (wb : Workbook) : Bool × Stores :=
  (true,
   { users := restoreSheet "users" netOk st.users (sheetFor wb "users"),
     customers := restoreSheet "customers" netOk st.customers (sheetFor wb "customers"),
     services := restoreSheet "services" netOk st.services (sheetFor wb "services"),
     jobs := restoreSheet "jobs" netOk st.jobs (sheetFor wb "jobs"),
     inventory := restoreSheet "inventory" netOk st.inventory (sheetFor wb "inventory"),
     settings := restoreSheet "settings" netOk st.settings (sheetFor wb "settings") })

/-- The localStorage collections that the `src/unnamed/part_001` restore
writes: one array per entity collection plus the singleton settings item. -/
structure StoresV1 where
  users : List Rec
  customers : List Rec
  services : List Rec
  jobs : List Rec
  inventory : List Rec
  settingsItem : Option Rec
deriving DecidableEq, Repr

/-- `storage.set` driven restore of one collection in `src/unnamed/part_001`
(lines 165-177): a present sheet replaces the whole collection with its rows
(`sheet_to_json` rows are all objects, so the sanitizing filter keeps them),
an absent sheet leaves it alone. -/
def replaceFromSheet (cur : List Rec) (rows : Option (List Rec)) : List Rec :=
  match rows with
  | none => cur
  | some rs => rs

/-- `db.system.restore` of the localStorage revision (`src/unnamed/part_001`
lines 148-188): it first computes the matching sheet names and rejects with
an explicit error when there are none, before any write; otherwise each
matching collection is replaced wholesale, with the settings item taken from
the first data row of its sheet when present. -/
def dbRestoreV1 (st : StoresV1) (wb : Workbook) : Except String StoresV1 :=
  if (STORE_NAMES.filter (fun name => (sheetNames wb).contains name)).isEmpty then
    Except.error "Invalid backup: No recognizable ERP data sheets found."
  else
    Except.ok
      { users := replaceFromSheet st.users (sheetFor wb "users"),
        customers := replaceFromSheet st.customers (sheetFor wb "customers"),
        services := replaceFromSheet st.services (sheetFor wb "services"),
        jobs := replaceFromSheet st.jobs (sheetFor wb "jobs"),
        inventory := replaceFromSheet st.inventory (sheetFor wb "inventory"),
        settingsItem :=
          match sheetFor wb "settings" with
          | some (r :: _) => some r
          | _ => st.settingsItem }

/-- Job workflow status (`src/types.ts` line 38). -/
inductive JobStatus where
  | PENDING
  | IN_PROGRESS
  | COMPLETED
  | CANCELLED
deriving DecidableEq, Repr

/-- Payment status (`src/types.ts` line 39). -/
inductive PaymentStatus where
  | UNPAID
  | PARTIAL
  | PAID
deriving DecidableEq, Repr

/-- A job line item (`src/types.ts` lines 41-48). -/
structure JobItemRec where
  serviceId : String
  quantity : Rat
  unitPrice : Rat
  discount : Rat
  subtotal : Rat
  status : JobStatus
deriving DecidableEq, Repr

/-- The staged-item subtotal effect in `src/pages/JobManagement.tsx` lines
147-150: `subtotal = Math.max(0, quantity * unitPrice - discount)`. -/
def stagedSubtotal (q u d : Rat) : Rat :=
  max 0 (q * u - d)

/-- A line item as `handleAddStagedItem` pushes it (`JobManagement.tsx`
lines 155-160): the staged fields with the subtotal maintained by the effect
above. -/
def stageItem (sid : String) (q u d : Rat) (st : JobStatus) : JobItemRec :=
  { serviceId := sid, quantity := q, unitPrice := u, discount := d,
    subtotal := stagedSubtotal q u d, status := st }

/-- `totals.grossTotal` (`JobManagement.tsx` line 136). -/
def grossTotal (items : List JobItemRec) : Rat :=
  (items.map (fun i => i.unitPrice * i.quantity)).sum

/-- `totals.totalDiscount` (`JobManagement.tsx` line 137). -/
def totalDiscount (items : List JobItemRec) : Rat :=
  (items.map (fun i => i.discount)).sum

/-- `totals.netTotal` (`JobManagement.tsx` line 138); note there is no
per-line floor here, unlike the staged subtotal. -/
def netTotal (items : List JobItemRec) : Rat :=
  grossTotal items - totalDiscount items

/-- `totals.pendingAmount` (`JobManagement.tsx` line 139). -/
def pendingAmount (items : List JobItemRec) (paid : Rat) : Rat :=
  max 0 (netTotal items - paid)

/-- The payment status computed in `handleSave` (`JobManagement.tsx` line
180): PAID when the balance is exactly 0, else PARTIAL when something was
paid, else UNPAID. -/
def derivePaymentStatus (balance paid : Rat) : PaymentStatus :=
  if balance = 0 then PaymentStatus.PAID
  else if paid > 0 then PaymentStatus.PARTIAL
  else PaymentStatus.UNPAID

/-- The every/some cascade deriving the overall job status from the items,
as written identically in `handleSave` (`JobManagement.tsx` lines 182-185)
and `handleItemStatusUpdate` (lines 208-211). -/
def deriveStatus (items : List JobItemRec) : JobStatus :=
  if items.all (fun i => i.status == JobStatus.COMPLETED) then JobStatus.COMPLETED
  else if items.any (fun i => i.status == JobStatus.IN_PROGRESS || i.status == JobStatus.COMPLETED) then JobStatus.IN_PROGRESS
  else if items.all (fun i => i.status == JobStatus.CANCELLED) then JobStatus.CANCELLED
  else JobStatus.PENDING

/-- The job fields that `handleSave` persists (`src/types.ts` lines 50-63
minus the timestamps, which are wall-clock strings). -/
structure JobRec where
  id : String
  customerId : String
  items : List JobItemRec
  status : JobStatus
  paymentStatus : PaymentStatus
  discount : Rat
  totalAmount : Rat
  paidAmount : Rat
  balance : Rat
  notes : String
deriving DecidableEq, Repr

/-- `handleSave` (`JobManagement.tsx` lines 176-202): guard on a customer
and a non-empty item list, then persist the job with balance
`totals.pendingAmount`, the derived payment status, the derived overall
status, and `totalAmount` kept equal to `totals.netTotal` by the effect on
lines 143-145.  The `discount` aggregate field is whatever the form holds. -/
def jmHandleSave (customerId : String) (items : List JobItemRec) (paid : Rat)
    (discount : Rat) (jobId notes : String) : Option JobRec :=
  if customerId == "" || items.isEmpty then none
  else
    let balance := pendingAmount items paid
    some { id := jobId, customerId := customerId, items := items,
           status := deriveStatus items,
           paymentStatus := derivePaymentStatus balance paid,
           discount := discount, totalAmount := netTotal items,
           paidAmount := paid, balance := balance, notes := notes }

/-- `handleItemStatusUpdate` (`JobManagement.tsx` lines 204-229): replace
the status of the item at the given index and rederive the overall status
with the same cascade; the monetary fields are carried over unchanged. -/
def jmItemStatusUpdate (items : List JobItemRec) (idx : Nat) (ns : JobStatus) :
    List JobItemRec × JobStatus :=
  let newItems := items.mapIdx (fun i item =>
    if i == idx then { item with status := ns } else item)
  (newItems, deriveStatus newItems)

/-- A record just written with `put` is in the store. -/
theorem mem_idbPut_self {α : Type} (key : α → String) (store : List α) (r : α) :
    r ∈ idbPut key store r := by
  by_cases h : store.any (fun x => key x == key r) = true
  · obtain ⟨x, hx, hbeq⟩ := List.any_eq_true.mp h
    simp only [idbPut, h, if_true]
    exact List.mem_map.mpr ⟨x, hx, by simp [hbeq]⟩
  · simp only [idbPut, h, if_false]
    exact List.mem_append_right _ (List.mem_singleton.mpr rfl)

/-- A `put` under a different key leaves an existing record in the store. -/
theorem mem_idbPut_of_key_ne {α : Type} (key : α → String) {store : List α}
    {r : α} (d : α) (hr : r ∈ store) (hne : key r ≠ key d) :
    r ∈ idbPut key store d := by
  by_cases h : store.any (fun x => key x == key d) = true
  · simp only [idbPut, h, if_true]
    refine List.mem_map.mpr ⟨r, hr, ?_⟩
    simp [beq_eq_false_iff_ne.mpr hne]
  · simp only [idbPut, h, if_false]
    exact List.mem_append_left _ hr

/-- Folding `put` over records whose keys all differ from the key of `r`
keeps `r` in the store. -/
theorem mem_foldl_idbPut_of_ne {α : Type} (key : α → String) :
    ∀ (data init : List α) (r : α), r ∈ init →
      (∀ x ∈ data, key x ≠ key r) → r ∈ data.foldl (idbPut key) init := by
  intro data
  induction data with
  | nil => intro init r h _; simpa using h
  | cons d ds ih =>
      intro init r h hne
      simp only [List.foldl_cons]
      refine ih _ r ?_ (fun x hx => hne x (List.mem_cons_of_mem d hx))
      exact mem_idbPut_of_key_ne key d h (Ne.symm (hne d (List.mem_cons_self d ds)))

/-- Cache refresh is complete: when the refreshed list carries pairwise
distinct keys, every one of its records is in the store after the fold of
`put` calls that `DatabaseEngine.all` performs. -/
theorem mem_foldl_idbPut {α : Type} (key : α → String) :
    ∀ (data init : List α) (r : α), r ∈ data → (data.map key).Nodup →
      r ∈ data.foldl (idbPut key) init := by
  intro data
  induction data with
  | nil => intro init r hr _; simp at hr
  | cons d ds ih =>
      intro init r hr hnd
      simp only [List.map_cons, List.nodup_cons] at hnd
      obtain ⟨hdn, hnd2⟩ := hnd
      simp only [List.foldl_cons]
      rcases List.mem_cons.mp hr with rfl | hr2
      · refine mem_foldl_idbPut_of_ne key ds (idbPut key init r) r
          (mem_idbPut_self key init r) (fun x hx hk => ?_)
        exact hdn (hk ▸ List.mem_map_of_mem key hx)
      · exact ih _ r hr2 hnd2

/-- Everything in a delete-filtered store has a key different from the
deleted id. -/
theorem key_ne_of_mem_filter {α : Type} (key : α → String) (l : List α)
    (id : String) : ∀ r ∈ l.filter (fun x => key x != id), key r ≠ id := by
  intro r hr
  simpa [bne_iff_ne] using List.of_mem_filter hr

/-- Claim C1 counterexample: with the remote unconfigured and the
`indexedDB.open` request erroring, `all()` rejects with the `connectLocal`
message instead of resolving with a list, refuting the clause that under no
circumstances does `all()` raise or reject. -/
theorem c1_counterexample :
    engineAll Rec.id ⟨false, [], []⟩ true false true
      = Except.error "Local database failed to open" := rfl

/-- Claim C1 (amended): when the remote backend is unconfigured or its
select fails, and the local database opens, `all()` resolves with exactly
the local store contents, and with the empty list when the local `getAll`
request errors; when the local database fails to open, `all()` rejects. -/
theorem c1_all_local_fallback (s : SyncState Rec) (netOk readOk : Bool)
    (hremote : s.configured = true → netOk = false) :
    engineAll Rec.id s netOk true readOk
      = Except.ok ((if readOk then s.localStore else []), s) ∧
    engineAll Rec.id s netOk false readOk
      = Except.error "Local database failed to open" := by
  have hc : (s.configured && netOk) = false := by
    cases hcfg : s.configured with
    | false => rfl
    | true => simp [hremote hcfg]
  constructor <;> simp [engineAll, cloudAll, hc]

/-- Witness for C1 at a concrete state: local holds one customer record,
remote unconfigured. -/
theorem c1_all_local_fallback_witness :
    engineAll Rec.id ⟨false, [], [⟨"cust1", [("name", "A")]⟩]⟩ true true true
      = Except.ok ([⟨"cust1", [("name", "A")]⟩], ⟨false, [], [⟨"cust1", [("name", "A")]⟩]⟩) ∧
    engineAll Rec.id ⟨false, [], [⟨"cust1", [("name", "A")]⟩]⟩ true false true
      = Except.error "Local database failed to open" :=
  c1_all_local_fallback ⟨false, [], [⟨"cust1", [("name", "A")]⟩]⟩ true true
    (fun h => by simp at h)

/-- Claim C2 (confirmed): when the remote is configured and the select
succeeds, `all()` resolves with the remote list and refreshes the local
store so that every returned record (the remote table being keyed by id,
its rows carry distinct ids) is afterwards in the local store. -/
theorem c2_refresh_complete (s : SyncState Rec) (readOk : Bool)
    (hcfg : s.configured = true) (hnd : (s.remote.map Rec.id).Nodup) :
    engineAll Rec.id s true true readOk
      = Except.ok (s.remote,
          { s with localStore := s.remote.foldl (idbPut Rec.id) s.localStore }) ∧
    ∀ r ∈ s.remote, r ∈ s.remote.foldl (idbPut Rec.id) s.localStore := by
  constructor
  · simp [engineAll, cloudAll, hcfg]
  · intro r hr
    exact mem_foldl_idbPut Rec.id s.remote s.localStore r hr hnd

/-- Witness for C2 at a concrete state: the remote holds two records, one
of which shadows a stale local copy. -/
theorem c2_refresh_complete_witness :
    engineAll Rec.id ⟨true, [⟨"a", [("n", "1")]⟩, ⟨"b", []⟩], [⟨"a", [("n", "0")]⟩]⟩ true true true
      = Except.ok ([⟨"a", [("n", "1")]⟩, ⟨"b", []⟩],
          { (⟨true, [⟨"a", [("n", "1")]⟩, ⟨"b", []⟩], [⟨"a", [("n", "0")]⟩]⟩ : SyncState Rec) with
            localStore := [⟨"a", [("n", "1")]⟩, ⟨"b", []⟩].foldl (idbPut Rec.id) [⟨"a", [("n", "0")]⟩] }) ∧
    ∀ r ∈ [(⟨"a", [("n", "1")]⟩ : Rec), ⟨"b", []⟩],
      r ∈ [(⟨"a", [("n", "1")]⟩ : Rec), ⟨"b", []⟩].foldl (idbPut Rec.id) [⟨"a", [("n", "0")]⟩] :=
  c2_refresh_complete ⟨true, [⟨"a", [("n", "1")]⟩, ⟨"b", []⟩], [⟨"a", [("n", "0")]⟩]⟩ true rfl
    (by decide)

/-- Claim C3 (confirmed): with the remote backend disabled, `save(r)`
resolves with the input record unchanged, and a subsequent `all()` resolves
with the local store contents, which include `r`. -/
theorem c3_save_then_all (storeName : String) (s : SyncState Rec) (r : Rec)
    (netOk netOk2 : Bool) (hcfg : s.configured = false) :
    ∃ s1, engineSave Rec.id storeName s netOk true true r = Except.ok (r, s1) ∧
      engineAll Rec.id s1 netOk2 true true = Except.ok (s1.localStore, s1) ∧
      r ∈ s1.localStore := by
  refine ⟨{ s with localStore := idbPut Rec.id s.localStore r }, ?_, ?_, ?_⟩
  · simp [engineSave, cloudSave, hcfg]
  · simp [engineAll, cloudAll, hcfg]
  · exact mem_idbPut_self Rec.id s.localStore r

/-- Witness for C3: saving a customer record into a store already holding
an unrelated record, with the remote disabled. -/
theorem c3_save_then_all_witness :
    ∃ s1, engineSave Rec.id "customers" ⟨false, [], [⟨"c0", []⟩]⟩ false true true ⟨"c1", [("name", "B")]⟩
        = Except.ok (⟨"c1", [("name", "B")]⟩, s1) ∧
      engineAll Rec.id s1 false true true = Except.ok (s1.localStore, s1) ∧
      (⟨"c1", [("name", "B")]⟩ : Rec) ∈ s1.localStore :=
  c3_save_then_all "customers" ⟨false, [], [⟨"c0", []⟩]⟩ ⟨"c1", [("name", "B")]⟩ false false rfl

/-- Evaluation equation: with the local requests succeeding, `delete`
always resolves, removing the id locally after the best effort remote
delete. -/
theorem engineDelete_ok {α : Type} (key : α → String) (storeName : String)
    (s : SyncState α) (netOk : Bool) (id : String) :
    engineDelete key storeName s netOk true true id
      = Except.ok { (cloudDelete key s netOk id).2 with
          localStore := ((cloudDelete key s netOk id).2).localStore.filter
            (fun x => key x != id) } := rfl

/-- Evaluation equation: a configured, reachable remote makes `all()`
resolve with the remote rows and refresh the local cache. -/
theorem engineAll_remote {α : Type} (key : α → String) (s : SyncState α)
    (netOk readOk : Bool) (h : (s.configured && netOk) = true) :
    engineAll key s netOk true readOk
      = Except.ok (s.remote,
          { s with localStore := s.remote.foldl (idbPut key) s.localStore }) := by
  simp [engineAll, cloudAll, h]

/-- Evaluation equation: with the remote unavailable and the local requests
succeeding, `all()` resolves with the local store contents. -/
theorem engineAll_fallback {α : Type} (key : α → String) (s : SyncState α)
    (netOk : Bool) (h : (s.configured && netOk) = false) :
    engineAll key s netOk true true = Except.ok (s.localStore, s) := by
  simp [engineAll, cloudAll, h]

/-- Claim C7 counterexample: the remote delete fails (network error, caught
and swallowed) while the remote select succeeds, so `delete(id)` completes
without error and yet the `all()` evaluated afterwards still contains a
record with the deleted id. -/
theorem c7_counterexample :
    engineDelete Rec.id "jobs" ⟨true, [⟨"x", []⟩], []⟩ false true true "x"
      = Except.ok ⟨true, [⟨"x", []⟩], []⟩ ∧
    engineAll Rec.id ⟨true, [⟨"x", []⟩], []⟩ true true true
      = Except.ok ([⟨"x", []⟩], ⟨true, [⟨"x", []⟩], [⟨"x", []⟩]⟩) ∧
    (⟨"x", []⟩ : Rec).id = "x" :=
  ⟨rfl, rfl, rfl⟩


/-- Claim C7 (amended): `delete(id)` completes without error for any id,
present or not, and the `all()` evaluated afterwards contains no record
with that id, provided the remote delete did not fail while the subsequent
remote read succeeds (in particular whenever the remote is unconfigured, or
both remote calls succeed, or the id is absent from the remote table). -/
theorem c7_delete_then_all (storeName : String) (s : SyncState Rec)
    (id : String) (netOk netOk2 : Bool)
    (h : s.configured = true → netOk2 = true →
      (netOk = true ∨ id ∉ s.remote.map Rec.id)) :
    ∃ s1 res s2,
      engineDelete Rec.id storeName s netOk true true id = Except.ok s1 ∧
      engineAll Rec.id s1 netOk2 true true = Except.ok (res, s2) ∧
      ∀ r ∈ res, r.id ≠ id := by
  by_cases hcn : (s.configured && netOk) = true
  · have hdel : engineDelete Rec.id storeName s netOk true true id
        = Except.ok { s with remote := s.remote.filter (fun x => Rec.id x != id),
                             localStore := s.localStore.filter (fun x => Rec.id x != id) } := by
      simp [engineDelete, cloudDelete, hcn]
    by_cases hc2 : (s.configured && netOk2) = true
    · refine ⟨_, _, _, hdel, engineAll_remote Rec.id _ netOk2 true hc2, ?_⟩
      exact key_ne_of_mem_filter Rec.id s.remote id
    · have hc2f : (s.configured && netOk2) = false := by simpa using hc2
      refine ⟨_, _, _, hdel, engineAll_fallback Rec.id _ netOk2 hc2f, ?_⟩
      exact key_ne_of_mem_filter Rec.id s.localStore id
  · have hcnf : (s.configured && netOk) = false := by simpa using hcn
    have hdel : engineDelete Rec.id storeName s netOk true true id
        = Except.ok { s with localStore := s.localStore.filter (fun x => Rec.id x != id) } := by
      simp [engineDelete, cloudDelete, hcnf]
    by_cases hc2 : (s.configured && netOk2) = true
    · have hboth := hc2
      rw [Bool.and_eq_true] at hboth
      obtain ⟨hcfg, hnet2⟩ := hboth
      rcases h hcfg hnet2 with hnet | habs
      · exact absurd (by simp [hcfg, hnet]) hcn
      · refine ⟨_, _, _, hdel, engineAll_remote Rec.id _ netOk2 true hc2, ?_⟩
        intro r hr hrid
        exact habs (hrid ▸ List.mem_map_of_mem Rec.id hr)
    · have hc2f : (s.configured && netOk2) = false := by simpa using hc2
      refine ⟨_, _, _, hdel, engineAll_fallback Rec.id _ netOk2 hc2f, ?_⟩
      exact key_ne_of_mem_filter Rec.id s.localStore id

/-- Witness for C7: deleting an id that is nowhere stored, remote
configured and both calls succeeding. -/
theorem c7_delete_then_all_witness :
    ∃ s1 res s2,
      engineDelete Rec.id "jobs" ⟨true, [⟨"j1", []⟩], [⟨"j1", []⟩]⟩ true true true "ghost"
        = Except.ok s1 ∧
      engineAll Rec.id s1 true true true = Except.ok (res, s2) ∧
      ∀ r ∈ res, r.id ≠ "ghost" :=
  c7_delete_then_all "jobs" ⟨true, [⟨"j1", []⟩], [⟨"j1", []⟩]⟩ "ghost" true true
    (fun _ _ => Or.inl rfl)

/-- The matching step yields nothing on a list with no matching user. -/
theorem login_eq_none (users : List UserRec) (un pw : String)
    (h : ∀ u ∈ users, ¬(u.username = un ∧ u.password = some pw)) :
    login users un pw = none := by
  refine List.find?_eq_none.mpr (fun u hu => ?_)
  simpa [Bool.and_eq_true, beq_iff_eq] using h u hu

/-- Claim C8 counterexample: with the remote unconfigured and the local
database failing to open, login for a non-matching pair rejects with the
uncaught `connectLocal` error instead of resolving with `null`, refuting
the clause that login never raises an exception. -/
theorem c8_counterexample :
    dbLogin ⟨false, [], []⟩ true false true "admin" "wrong"
      = Except.error "Local database failed to open" := rfl

/-- Claim C8 (amended): whenever the user list is retrievable (the local
database opens), login for any username/password pair matching no stored
user — in either backend — resolves with `null`, and two such scenarios
(an existing username with a wrong password, an unknown username) produce
identical results; but when `db.users.all()` rejects because the local
database fails to open, login rejects with that error instead of returning
absent. -/
theorem c8_login_no_match (s s2 : SyncState UserRec)
    (netOk readOk netOk2 readOk2 : Bool) (un pw un2 pw2 : String)
    (h1r : ∀ u ∈ s.remote, ¬(u.username = un ∧ u.password = some pw))
    (h1l : ∀ u ∈ s.localStore, ¬(u.username = un ∧ u.password = some pw))
    (h2r : ∀ u ∈ s2.remote, ¬(u.username = un2 ∧ u.password = some pw2))
    (h2l : ∀ u ∈ s2.localStore, ¬(u.username = un2 ∧ u.password = some pw2)) :
    dbLogin s netOk true readOk un pw = Except.ok none ∧
    dbLogin s2 netOk2 true readOk2 un2 pw2 = Except.ok none ∧
    dbLogin s netOk true readOk un pw = dbLogin s2 netOk2 true readOk2 un2 pw2 ∧
    dbLogin s netOk false readOk un pw = Except.error "Local database failed to open" := by
  have resolve : ∀ (t : SyncState UserRec) (nOk rOk : Bool) (u p : String),
      (∀ x ∈ t.remote, ¬(x.username = u ∧ x.password = some p)) →
      (∀ x ∈ t.localStore, ¬(x.username = u ∧ x.password = some p)) →
      dbLogin t nOk true rOk u p = Except.ok none := by
    intro t nOk rOk u p hr hl
    unfold dbLogin engineAll cloudAll
    by_cases hb : (t.configured && nOk) = true
    · rw [if_pos hb]
      simp [login_eq_none t.remote u p hr]
    · rw [if_neg hb]
      cases rOk with
      | true => simp [login_eq_none t.localStore u p hl]
      | false => simp [login]
  have e1 := resolve s netOk readOk un pw h1r h1l
  have e2 := resolve s2 netOk2 readOk2 un2 pw2 h2r h2l
  refine ⟨e1, e2, e1.trans e2.symm, ?_⟩
  unfold dbLogin engineAll cloudAll
  by_cases hb : (s.configured && netOk) = true
  · rw [if_pos hb]
    rfl
  · rw [if_neg hb]
    rfl

/-- Witness for C8: against a local store holding the seeded default admin
user (remote unconfigured), a wrong password for the existing username
`admin` and a valid password under an unknown username both resolve with
`none`, and with the local open failing the call rejects. -/
theorem c8_login_no_match_witness :
    dbLogin ⟨false, [], DEFAULT_USERS⟩ true true true "admin" "wrong" = Except.ok none ∧
    dbLogin ⟨false, [], DEFAULT_USERS⟩ true true true "nobody" "password123" = Except.ok none ∧
    dbLogin ⟨false, [], DEFAULT_USERS⟩ true true true "admin" "wrong"
      = dbLogin ⟨false, [], DEFAULT_USERS⟩ true true true "nobody" "password123" ∧
    dbLogin ⟨false, [], DEFAULT_USERS⟩ true false true "admin" "wrong"
      = Except.error "Local database failed to open" :=
  c8_login_no_match ⟨false, [], DEFAULT_USERS⟩ ⟨false, [], DEFAULT_USERS⟩
    true true true true "admin" "wrong" "nobody" "password123"
    (by decide) (by decide) (by decide) (by decide)

/-- Claim C10 counterexample: with the remote not supplying the row and the
local database failing to open, `settings.get()` rejects instead of
resolving with a settings value, refuting the clause that it never raises. -/
theorem c10_counterexample :
    settingsGet ⟨false, [], []⟩ true false true
      = Except.error "Local database failed to open" := rfl

/-- Claim C10 (amended): whenever the local database opens, `settings.get()`
resolves with some settings value (never an absent result), and when both
backends hold nothing under the singleton key it resolves with the built-in
`DEFAULT_SETTINGS`; it rejects only when the remote lookup yields nothing
and the local database fails to open. -/
theorem c10_settings_get_total (s : SyncState SettingsRec) (netOk getOk : Bool) :
    (∃ cs, settingsGet s netOk true getOk = Except.ok cs) ∧
    (s.remote = [] → s.localStore = [] →
      settingsGet s netOk true getOk = Except.ok DEFAULT_SETTINGS) := by
  constructor
  · unfold settingsGet engineGetById
    cases (if s.configured && netOk then
        s.remote.find? (fun x => SettingsRec.id x == "current_config") else none) with
    | some r => exact ⟨r.value, rfl⟩
    | none =>
        cases (if getOk then
            s.localStore.find? (fun x => SettingsRec.id x == "current_config") else none) with
        | some r => exact ⟨r.value, rfl⟩
        | none => exact ⟨DEFAULT_SETTINGS, rfl⟩
  · intro h1 h2
    simp [settingsGet, engineGetById, h1, h2]

/-- Witness for C10: both backends empty, the default settings come back
and the call resolves. -/
theorem c10_settings_get_total_witness :
    (∃ cs, settingsGet ⟨false, [], []⟩ true true true = Except.ok cs) ∧
    ((⟨false, [], []⟩ : SyncState SettingsRec).remote = [] →
      (⟨false, [], []⟩ : SyncState SettingsRec).localStore = [] →
      settingsGet ⟨false, [], []⟩ true true true = Except.ok DEFAULT_SETTINGS) :=
  c10_settings_get_total ⟨false, [], []⟩ true true

/-- The fully empty application state: no remote configured, nothing stored
anywhere. -/
def emptyAppDb : AppDb :=
  { users := ⟨false, [], []⟩, services := ⟨false, [], []⟩, settings := ⟨false, [], []⟩ }

/-- Claim C9 counterexample: running `src/db.ts` `init` on completely empty
collections leaves the services collection empty in both backends even
though the default services list is non-empty — `db.ts` init never seeds
`DEFAULT_SERVICES` (only the `src/unnamed/part_001` revision does). -/
theorem c9_counterexample :
    (dbInit false emptyAppDb).services.localStore = [] ∧
    (dbInit false emptyAppDb).services.remote = [] ∧
    DEFAULT_SERVICES ≠ [] := by
  refine ⟨rfl, rfl, ?_⟩
  decide

/-- Claim C9 (amended): on first startup with empty collections, `src/db.ts`
`init` seeds the default Users and the default CompanySettings but not the
default Services; each seeding happens only when the users collection is
empty, respectively when no settings record is stored, and `init` on
non-empty collections changes nothing.  The localStorage revision
(`src/unnamed/part_001`) additionally seeds the default Services, again
only when that collection is empty. -/
theorem c9_init_seeding :
    ((dbInit false emptyAppDb).users.localStore = DEFAULT_USERS ∧
     (dbInit false emptyAppDb).settings.localStore
        = [{ id := "current_config", value := DEFAULT_SETTINGS }] ∧
     (dbInit false emptyAppDb).services = ⟨false, [], []⟩) ∧
    (∀ (d : AppDb) (netOk : Bool) (r0 : SettingsRec),
      d.users.configured = false → d.settings.configured = false →
      d.users.localStore.isEmpty = false →
      d.settings.localStore.find? (fun x => SettingsRec.id x == "current_config") = some r0 →
      dbInit netOk d = d) ∧
    (dbInitV1 ⟨[], [], none⟩ = ⟨DEFAULT_USERS, DEFAULT_SERVICES, some DEFAULT_SETTINGS⟩) ∧
    (∀ d : LocalDbV1, d.users.isEmpty = false → d.services.isEmpty = false →
      d.settingsItem.isNone = false → dbInitV1 d = d) := by
  refine ⟨⟨rfl, rfl, rfl⟩, ?_, by decide, ?_⟩
  · intro d netOk r0 hc1 hc2 hne hfind
    have hc1f : (d.users.configured && netOk) = false := by simp [hc1]
    have hc2f : (d.settings.configured && netOk) = false := by simp [hc2]
    unfold dbInit
    rw [engineAll_fallback UserRec.id d.users netOk hc1f]
    simp only [hne, Bool.false_eq_true, if_false]
    unfold engineGetById
    rw [if_neg (by simp [hc2]), hfind]
    rfl
  · intro d h1 h2 h3
    unfold dbInitV1
    simp [h1, h2, h3]

/-- Witness for C9 at concrete non-empty collections: `init` of both
revisions leaves an already provisioned state untouched. -/
theorem c9_init_seeding_witness :
    dbInit true
      { users := ⟨false, [], DEFAULT_USERS⟩, services := ⟨false, [], []⟩,
        settings := ⟨false, [], [{ id := "current_config", value := DEFAULT_SETTINGS }]⟩ }
      = { users := ⟨false, [], DEFAULT_USERS⟩, services := ⟨false, [], []⟩,
          settings := ⟨false, [], [{ id := "current_config", value := DEFAULT_SETTINGS }]⟩ } ∧
    dbInitV1 ⟨DEFAULT_USERS, DEFAULT_SERVICES, some DEFAULT_SETTINGS⟩
      = ⟨DEFAULT_USERS, DEFAULT_SERVICES, some DEFAULT_SETTINGS⟩ :=
  ⟨c9_init_seeding.2.1
      { users := ⟨false, [], DEFAULT_USERS⟩, services := ⟨false, [], []⟩,
        settings := ⟨false, [], [{ id := "current_config", value := DEFAULT_SETTINGS }]⟩ }
      true { id := "current_config", value := DEFAULT_SETTINGS } rfl rfl rfl (by decide),
   c9_init_seeding.2.2.2 ⟨DEFAULT_USERS, DEFAULT_SERVICES, some DEFAULT_SETTINGS⟩
      (by decide) (by decide) rfl⟩

/-- A workbook whose only sheet matches no canonical table name, and a
store state with some existing data. -/
def c4Workbook : Workbook := ⟨[("payroll", [⟨"r1", [("col", "v")]⟩])]⟩

/-- A concrete store state used for the C4 counterexample. -/
def c4Stores : Stores :=
  { users := ⟨false, [], [⟨"u1", []⟩]⟩, customers := ⟨false, [], []⟩,
    services := ⟨false, [], []⟩, jobs := ⟨false, [], []⟩,
    inventory := ⟨false, [], []⟩, settings := ⟨false, [], []⟩ }

/-- Claim C4 counterexample: on a workbook in which zero sheet names match
any canonical table name, the `src/db.ts` restore resolves successfully
with `true` (stores untouched) instead of being rejected with an explicit
error. -/
theorem c4_counterexample :
    dbRestore false c4Stores c4Workbook = (true, c4Stores) := rfl

/-- Claim C4 (amended): a workbook with zero matching sheet names causes no
write to any store under either revision; the `src/unnamed/part_001`
restore rejects it with its explicit error before any write, while the
`src/db.ts` restore instead resolves successfully with the stores
unchanged. -/
theorem c4_restore_unrecognized (netOk : Bool) (st : Stores) (stV1 : StoresV1)
    (wb : Workbook)
    (hmatch : ∀ n ∈ STORE_NAMES, sheetFor wb n = none)
    (hnames : (STORE_NAMES.filter (fun name => (sheetNames wb).contains name)).isEmpty = true) :
    dbRestore netOk st wb = (true, st) ∧
    dbRestoreV1 stV1 wb
      = Except.error "Invalid backup: No recognizable ERP data sheets found." := by
  constructor
  · have h1 := hmatch "users" (by decide)
    have h2 := hmatch "customers" (by decide)
    have h3 := hmatch "services" (by decide)
    have h4 := hmatch "jobs" (by decide)
    have h5 := hmatch "inventory" (by decide)
    have h6 := hmatch "settings" (by decide)
    simp only [dbRestore, h1, h2, h3, h4, h5, h6, restoreSheet]
  · simp only [dbRestoreV1, hnames, if_true]

/-- Witness for C4 on the concrete unrecognized workbook. -/
theorem c4_restore_unrecognized_witness :
    dbRestore false c4Stores c4Workbook = (true, c4Stores) ∧
    dbRestoreV1 ⟨[], [], [], [], [], none⟩ c4Workbook
      = Except.error "Invalid backup: No recognizable ERP data sheets found." :=
  c4_restore_unrecognized false c4Stores ⟨[], [], [], [], [], none⟩ c4Workbook
    (by decide) (by decide)

/-- The net total is the sum of the unfloored line values: the `totals`
computation subtracts the discount sum from the gross sum, which
distributes over the items. -/
theorem netTotal_eq_sum_line (items : List JobItemRec) :
    netTotal items = (items.map (fun i => i.quantity * i.unitPrice - i.discount)).sum := by
  induction items with
  | nil => simp [netTotal, grossTotal, totalDiscount]
  | cons a l ih =>
      simp only [netTotal, grossTotal, totalDiscount, List.map_cons, List.sum_cons] at ih ⊢
      rw [← ih]
      ring

/-- Characterization of the payment status cascade for a non-negative
balance. -/
theorem derivePaymentStatus_spec (balance paid : Rat) (hb : 0 ≤ balance) :
    (derivePaymentStatus balance paid = PaymentStatus.PAID ↔ balance = 0) ∧
    (derivePaymentStatus balance paid = PaymentStatus.PARTIAL ↔ (balance > 0 ∧ paid > 0)) ∧
    (derivePaymentStatus balance paid = PaymentStatus.UNPAID ↔ (balance > 0 ∧ ¬ paid > 0)) := by
  unfold derivePaymentStatus
  by_cases h0 : balance = 0
  · simp [h0]
  · have hpos : 0 < balance := lt_of_le_of_ne hb (Ne.symm h0)
    by_cases hp : paid > 0 <;> simp [h0, hp, hpos]

/-- The concrete over-discounted line used to refute C5: one unit at 10
with a line discount of 20. -/
def c5Item : JobItemRec := stageItem "s1" 1 10 20 JobStatus.PENDING

/-- Claim C5 counterexample: a job saved through the JobManagement path
with a single staged line whose discount (20) exceeds its gross value
(1 × 10) carries `totalAmount = -10`, while the sum of the floored item
subtotals is `0` — `totalAmount` does not equal the sum of the items'
subtotals. -/
theorem c5_counterexample :
    (jmHandleSave "c1" [c5Item] 0 0 "job1" "").map (fun j => j.totalAmount)
        = some (-10) ∧
    (jmHandleSave "c1" [c5Item] 0 0 "job1" "").map
        (fun j => (j.items.map (fun i => i.subtotal)).sum) = some 0 ∧
    (-10 : Rat) ≠ 0 := by
  have hj : jmHandleSave "c1" [c5Item] 0 0 "job1" ""
      = some { id := "job1", customerId := "c1", items := [c5Item],
               status := deriveStatus [c5Item],
               paymentStatus := derivePaymentStatus (pendingAmount [c5Item] 0) 0,
               discount := 0, totalAmount := netTotal [c5Item],
               paidAmount := 0, balance := pendingAmount [c5Item] 0,
               notes := "" } := rfl
  have hsub : c5Item.subtotal = 0 := by
    show stagedSubtotal 1 10 20 = 0
    unfold stagedSubtotal
    rw [max_eq_left (by norm_num)]
  refine ⟨?_, ?_, by norm_num⟩
  · rw [hj]
    show some (netTotal [c5Item]) = some (-10)
    congr 1
    simp only [netTotal, grossTotal, totalDiscount, List.map_cons, List.map_nil,
      List.sum_cons, List.sum_nil]
    show (10 : Rat) * 1 + 0 - (20 + 0) = -10
    norm_num
  · rw [hj]
    show some ((List.map (fun i => i.subtotal) [c5Item]).sum) = some 0
    congr 1
    simp only [List.map_cons, List.map_nil, List.sum_cons, List.sum_nil, hsub]
    norm_num

/-- Claim C5 (amended): for jobs written through the JobManagement save
path, each staged item's subtotal is `max(0, quantity × unitPrice −
discount)`, `totalAmount` is the gross sum minus the discount sum — which
equals the sum of the items' subtotals whenever no line's discount exceeds
its gross value — `balance = max(0, totalAmount − paidAmount)`, and
`paymentStatus` is PAID exactly when the balance is 0, PARTIAL exactly when
something is paid and a positive balance remains, else UNPAID. -/
theorem c5_job_money_invariants (customerId : String) (items : List JobItemRec)
    (paid discount : Rat) (jobId notes : String)
    (hcid : (customerId == "") = false) (hne : items.isEmpty = false)
    (hstaged : ∀ i ∈ items, i.subtotal = stagedSubtotal i.quantity i.unitPrice i.discount)
    (hdisc : ∀ i ∈ items, i.discount ≤ i.quantity * i.unitPrice) :
    ∃ j, jmHandleSave customerId items paid discount jobId notes = some j ∧
      (∀ i ∈ j.items, i.subtotal = max 0 (i.quantity * i.unitPrice - i.discount)) ∧
      j.totalAmount = (j.items.map (fun i => i.subtotal)).sum ∧
      j.balance = max 0 (j.totalAmount - j.paidAmount) ∧
      (j.paymentStatus = PaymentStatus.PAID ↔ j.balance = 0) ∧
      (j.paymentStatus = PaymentStatus.PARTIAL ↔ (j.balance > 0 ∧ j.paidAmount > 0)) ∧
      (j.paymentStatus = PaymentStatus.UNPAID ↔ (j.balance > 0 ∧ ¬ j.paidAmount > 0)) := by
  have hsubs : ∀ i ∈ items, i.subtotal = i.quantity * i.unitPrice - i.discount := by
    intro i hi
    rw [hstaged i hi, stagedSubtotal, max_eq_right (sub_nonneg.mpr (hdisc i hi))]
  have hsum : netTotal items = (items.map (fun i => i.subtotal)).sum := by
    rw [netTotal_eq_sum_line, List.map_congr_left (fun i hi => (hsubs i hi).symm)]
  have hbal : (0 : Rat) ≤ pendingAmount items paid := le_max_left 0 _
  refine ⟨{ id := jobId, customerId := customerId, items := items,
            status := deriveStatus items,
            paymentStatus := derivePaymentStatus (pendingAmount items paid) paid,
            discount := discount, totalAmount := netTotal items,
            paidAmount := paid, balance := pendingAmount items paid, notes := notes },
          ?_, hstaged, hsum, rfl, derivePaymentStatus_spec (pendingAmount items paid) paid hbal⟩
  simp [jmHandleSave, hcid, hne]

/-- Witness for C5: one fully staged line of two units at 50 with a
discount of 20, partially paid with 40. -/
theorem c5_job_money_invariants_witness :
    ∃ j, jmHandleSave "c1" [stageItem "s1" 2 50 20 JobStatus.PENDING] 40 0 "job1" "note"
        = some j ∧
      (∀ i ∈ j.items, i.subtotal = max 0 (i.quantity * i.unitPrice - i.discount)) ∧
      j.totalAmount = (j.items.map (fun i => i.subtotal)).sum ∧
      j.balance = max 0 (j.totalAmount - j.paidAmount) ∧
      (j.paymentStatus = PaymentStatus.PAID ↔ j.balance = 0) ∧
      (j.paymentStatus = PaymentStatus.PARTIAL ↔ (j.balance > 0 ∧ j.paidAmount > 0)) ∧
      (j.paymentStatus = PaymentStatus.UNPAID ↔ (j.balance > 0 ∧ ¬ j.paidAmount > 0)) :=
  c5_job_money_invariants "c1" [stageItem "s1" 2 50 20 JobStatus.PENDING] 40 0 "job1" "note"
    rfl rfl
    (by intro i hi; simp only [List.mem_singleton] at hi; subst hi; rfl)
    (by
      intro i hi; simp only [List.mem_singleton] at hi; subst hi
      show (20 : Rat) ≤ 2 * 50
      norm_num)

/-- Claim C6 (confirmed): for a non-empty item list, the status cascade
used both by `handleSave` and by `handleItemStatusUpdate` yields COMPLETED
exactly when all items are COMPLETED, IN_PROGRESS exactly when some item is
IN_PROGRESS or COMPLETED but not all are COMPLETED, CANCELLED exactly when
all items are CANCELLED, and PENDING otherwise; `handleSave` persists
exactly this derived status and the per-item update rederives it from the
updated item list. -/
theorem c6_derive_status (items : List JobItemRec) (idx : Nat) (ns : JobStatus)
    (customerId jobId notes : String) (paid discount : Rat)
    (hne : items ≠ []) (hcid : (customerId == "") = false) :
    ((deriveStatus items = JobStatus.COMPLETED ↔
        ∀ i ∈ items, i.status = JobStatus.COMPLETED) ∧
     (deriveStatus items = JobStatus.IN_PROGRESS ↔
        ((∃ i ∈ items, (i.status = JobStatus.IN_PROGRESS ∨ i.status = JobStatus.COMPLETED)) ∧
         ¬ ∀ i ∈ items, i.status = JobStatus.COMPLETED)) ∧
     (deriveStatus items = JobStatus.CANCELLED ↔
        ∀ i ∈ items, i.status = JobStatus.CANCELLED) ∧
     (deriveStatus items = JobStatus.PENDING ↔
        (¬ (∃ i ∈ items, (i.status = JobStatus.IN_PROGRESS ∨ i.status = JobStatus.COMPLETED)) ∧
         ¬ ∀ i ∈ items, i.status = JobStatus.CANCELLED))) ∧
    (∃ j, jmHandleSave customerId items paid discount jobId notes = some j ∧
       j.status = deriveStatus items) ∧
    ((jmItemStatusUpdate items idx ns).2
       = deriveStatus (jmItemStatusUpdate items idx ns).1) := by
  obtain ⟨w, hw⟩ := List.exists_mem_of_ne_nil items hne
  have hemp : items.isEmpty = false := by
    cases items with
    | nil => exact absurd rfl hne
    | cons a l => rfl
  have hall_iff : ∀ p : JobStatus,
      (items.all (fun i => i.status == p) = true) ↔ ∀ i ∈ items, i.status = p := by
    intro p
    simp
  have hany_iff :
      (items.any (fun i => i.status == JobStatus.IN_PROGRESS
          || i.status == JobStatus.COMPLETED) = true) ↔
        ∃ i ∈ items, (i.status = JobStatus.IN_PROGRESS ∨ i.status = JobStatus.COMPLETED) := by
    simp
  refine ⟨?_,
    ⟨{ id := jobId, customerId := customerId, items := items,
       status := deriveStatus items,
       paymentStatus := derivePaymentStatus (pendingAmount items paid) paid,
       discount := discount, totalAmount := netTotal items,
       paidAmount := paid, balance := pendingAmount items paid, notes := notes },
     by simp [jmHandleSave, hcid, hemp], rfl⟩, rfl⟩
  unfold deriveStatus
  by_cases h1 : items.all (fun i => i.status == JobStatus.COMPLETED) = true
  · rw [if_pos h1]
    have H1 := (hall_iff _).mp h1
    exact ⟨iff_of_true rfl H1,
           iff_of_false (by decide) (fun h => h.2 H1),
           iff_of_false (by decide)
             (fun hall => absurd ((H1 w hw).symm.trans (hall w hw)) (by decide)),
           iff_of_false (by decide) (fun h => h.1 ⟨w, hw, Or.inr (H1 w hw)⟩)⟩
  · rw [if_neg h1]
    have Hn1 : ¬ ∀ i ∈ items, i.status = JobStatus.COMPLETED :=
      fun h => h1 ((hall_iff _).mpr h)
    by_cases h2 : items.any (fun i => i.status == JobStatus.IN_PROGRESS
        || i.status == JobStatus.COMPLETED) = true
    · rw [if_pos h2]
      obtain ⟨x, hx, hor⟩ := hany_iff.mp h2
      have HnCan : ¬ ∀ i ∈ items, i.status = JobStatus.CANCELLED := by
        intro hall
        rcases hor with h | h <;> exact absurd (h ▸ hall x hx) (by decide)
      exact ⟨iff_of_false (by decide) Hn1,
             iff_of_true rfl ⟨⟨x, hx, hor⟩, Hn1⟩,
             iff_of_false (by decide) HnCan,
             iff_of_false (by decide) (fun hp => hp.1 ⟨x, hx, hor⟩)⟩
    · rw [if_neg h2]
      have Hn2 : ¬ ∃ i ∈ items,
          (i.status = JobStatus.IN_PROGRESS ∨ i.status = JobStatus.COMPLETED) :=
        fun hex => h2 (hany_iff.mpr hex)
      by_cases h3 : items.all (fun i => i.status == JobStatus.CANCELLED) = true
      · rw [if_pos h3]
        have H3 := (hall_iff _).mp h3
        exact ⟨iff_of_false (by decide) Hn1,
               iff_of_false (by decide) (fun hp => Hn2 hp.1),
               iff_of_true rfl H3,
               iff_of_false (by decide) (fun hp => hp.2 H3)⟩
      · rw [if_neg h3]
        have Hn3 : ¬ ∀ i ∈ items, i.status = JobStatus.CANCELLED :=
          fun h => h3 ((hall_iff _).mpr h)
        exact ⟨iff_of_false (by decide) Hn1,
               iff_of_false (by decide) (fun hp => Hn2 hp.1),
               iff_of_false (by decide) Hn3,
               iff_of_true rfl ⟨Hn2, Hn3⟩⟩

/-- A concrete two-line job for the C6 witness: first line COMPLETED,
second line PENDING. -/
def c6Items : List JobItemRec :=
  [stageItem "s1" 1 10 0 JobStatus.COMPLETED, stageItem "s2" 2 5 0 JobStatus.PENDING]

/-- Witness for C6 at the concrete two-line job (overall status
IN_PROGRESS), updating line 0 to IN_PROGRESS. -/
theorem c6_derive_status_witness :
    ((deriveStatus c6Items = JobStatus.COMPLETED ↔
        ∀ i ∈ c6Items, i.status = JobStatus.COMPLETED) ∧
     (deriveStatus c6Items = JobStatus.IN_PROGRESS ↔
        ((∃ i ∈ c6Items, (i.status = JobStatus.IN_PROGRESS ∨ i.status = JobStatus.COMPLETED)) ∧
         ¬ ∀ i ∈ c6Items, i.status = JobStatus.COMPLETED)) ∧
     (deriveStatus c6Items = JobStatus.CANCELLED ↔
        ∀ i ∈ c6Items, i.status = JobStatus.CANCELLED) ∧
     (deriveStatus c6Items = JobStatus.PENDING ↔
        (¬ (∃ i ∈ c6Items, (i.status = JobStatus.IN_PROGRESS ∨ i.status = JobStatus.COMPLETED)) ∧
         ¬ ∀ i ∈ c6Items, i.status = JobStatus.CANCELLED))) ∧
    (∃ j, jmHandleSave "c1" c6Items 3 0 "job9" "" = some j ∧
       j.status = deriveStatus c6Items) ∧
    ((jmItemStatusUpdate c6Items 0 JobStatus.IN_PROGRESS).2
       = deriveStatus (jmItemStatusUpdate c6Items 0 JobStatus.IN_PROGRESS).1) :=
  c6_derive_status c6Items 0 JobStatus.IN_PROGRESS "c1" "job9" "" 3 0
    (List.cons_ne_nil _ _) rfl
